import Mathlib

/-!
Verification development for the photo-hq backend: a shallow embedding of the
six request handlers (upload_photo, update_photo, get_photo, get_metadata,
list_photos, delete_photo) and proofs of the specified properties.

Each handler is modelled as a pure function of the incoming event, the
metadata table, and oracles standing for the external stores.  Nondeterministic
inputs of the real code (fresh identifier, current timestamp, bucket names,
object-store delete outcomes, pagination-token parse outcomes) are explicit
parameters.  Dictionary accesses that can raise KeyError in the source are
modelled with Option: a missing key takes the handler to the KeyError branch,
which returns status 401.
-/

namespace PhotoHQ

/-- A photo metadata record as stored in the photos table.  Attributes that a
stored item may lack are Option valued, mirroring a schemaless item. -/
structure PhotoRecord where
  photo_id : String
  user_id : String
  filename : Option String := none
  original_s3_key : Option String := none
  original_bucket : Option String := none
  version_type : Option String := none
  content_type : Option String := none
  file_size : Option Int := none
  created_at : Option String := none
  updated_at : Option String := none
  has_edited_version : Bool := false
  status : Option String := none
  edited_s3_key : Option String := none
  edited_bucket : Option String := none
  edited_filename : Option String := none
  edited_content_type : Option String := none
  edited_file_size : Option Int := none
  edit_count : Option Int := none
  deriving Repr, DecidableEq

/-- The photos table, keyed by photo identifier. -/
def Table : Type := String → Option PhotoRecord

/-- Python truthiness of an optional string: absent and empty are falsy. -/
def truthy : Option String → Bool
  | none => false
  | some s => s != ""

/-- Write operations a handler performs against the metadata store and the
object store.  Read operations are not effects. -/
inductive Effect : Type where
  | dbPut : PhotoRecord → Effect
  | dbUpdate : String → Effect
  | dbDelete : String → Effect
  | s3Delete : String → String → Effect
  deriving Repr, DecidableEq

/-- allowed_types from upload_photo.py and update_photo.py. -/
def allowed_types : List String := ["image/jpeg", "image/jpg"]

/-- The size rejection test of upload_photo.py line 43 and update_photo.py
line 46: file_size below 5 times 1024 squared or above 20 times 1024 squared. -/
def fileSizeInvalid (file_size : Int) : Bool :=
  decide (file_size < 5 * 1024 * 1024) || decide (file_size > 20 * 1024 * 1024)

/-- Python str.lower for the ASCII strings the handlers compare; defined over
the character list so that it evaluates by kernel reduction. -/
def lowerStr (s : String) : String :=
  String.mk (s.data.map Char.toLower)

/-- The content-type acceptance test: lowercased value is in allowed_types. -/
def contentTypeOk (content_type : String) : Bool :=
  allowed_types.contains (lowerStr content_type)

/-- Event shape consumed by upload_photo: sub is the authorizer claim chain
(KeyError when absent), the remaining fields come from the JSON body via get. -/
structure UploadEvent where
  sub : Option String
  filename : Option String := none
  content_type : Option String := none
  file_size : Option Int := none
  deriving Repr

/-- Outcome of upload_photo: response status, error message when present,
response payload pieces, write effects, and the table after the call. -/
structure UploadResult where
  statusCode : Nat
  errorMsg : Option String := none
  photo_id : Option String := none
  s3_key : Option String := none
  effects : List Effect := []
  table : Table

/-- upload_photo.lambda_handler.  freshId models the generated uuid, timestamp
models datetime.utcnow().isoformat(), originals_bucket the environment value. -/
def upload_photo (ev : UploadEvent) (table : Table)
    (freshId timestamp originals_bucket : String) : UploadResult :=
  match ev.sub with
  | none => { statusCode := 401, errorMsg := some "Authentication required", table := table }
  | some user_id =>
    let content_type := ev.content_type.getD "image/jpeg"
    let file_size := ev.file_size.getD 0
    if !truthy ev.filename then
      { statusCode := 400, errorMsg := some "filename is required", table := table }
    else if fileSizeInvalid file_size then
      { statusCode := 400, errorMsg := some "File size must be between 5MB and 20MB",
        table := table }
    else if !contentTypeOk content_type then
      { statusCode := 400, errorMsg := some "Only JPEG files are supported", table := table }
    else
      let s3_key := user_id ++ "/originals/" ++ freshId ++ "/" ++ ev.filename.getD ""
      let item : PhotoRecord :=
        { photo_id := freshId
          user_id := user_id
          filename := ev.filename
          original_s3_key := some s3_key
          original_bucket := some originals_bucket
          version_type := some "original"
          content_type := some content_type
          file_size := some file_size
          created_at := some timestamp
          updated_at := some timestamp
          has_edited_version := false
          status := some "pending_upload" }
      { statusCode := 200
        photo_id := some freshId
        s3_key := some s3_key
        effects := [Effect.dbPut item]
        table := fun k => if k = freshId then some item else table k }

/-- Event shape consumed by update_photo: sub and photo_id are raising
accesses, the body fields come through get with defaults. -/
structure UpdateEvent where
  sub : Option String
  photo_id : Option String := none
  filename : Option String := none
  content_type : Option String := none
  file_size : Option Int := none
  deriving Repr

/-- Outcome of update_photo. -/
structure UpdateResult where
  statusCode : Nat
  errorMsg : Option String := none
  s3_key : Option String := none
  previous_version : Option String := none
  effects : List Effect := []
  table : Table

/-- update_photo.lambda_handler. -/
def update_photo (ev : UpdateEvent) (table : Table)
    (timestamp edited_bucket : String) : UpdateResult :=
  match ev.sub with
  | none => { statusCode := 401, errorMsg := some "Authentication required", table := table }
  | some user_id =>
  match ev.photo_id with
  | none => { statusCode := 401, errorMsg := some "Authentication required", table := table }
  | some photo_id =>
    let content_type := ev.content_type.getD "image/jpeg"
    let file_size := ev.file_size.getD 0
    if !truthy ev.filename then
      { statusCode := 400, errorMsg := some "filename is required", table := table }
    else if fileSizeInvalid file_size then
      { statusCode := 400, errorMsg := some "File size must be between 5MB and 20MB",
        table := table }
    else if !contentTypeOk content_type then
      { statusCode := 400, errorMsg := some "Only JPEG files are supported", table := table }
    else
      match table photo_id with
      | none => { statusCode := 404, errorMsg := some "Photo not found", table := table }
      | some photo_metadata =>
        if photo_metadata.user_id != user_id then
          { statusCode := 403, errorMsg := some "Access denied", table := table }
        else
          let s3_key := user_id ++ "/edited/" ++ photo_id ++ "/" ++ ev.filename.getD ""
          let previous_edited_key := photo_metadata.edited_s3_key
          let item : PhotoRecord :=
            { photo_metadata with
              edited_s3_key := some s3_key
              edited_bucket := some edited_bucket
              has_edited_version := true
              updated_at := some timestamp
              edited_filename := ev.filename
              edited_content_type := some content_type
              edited_file_size := some file_size
              edit_count := some (if truthy previous_edited_key then
                photo_metadata.edit_count.getD 0 + 1 else 1) }
          { statusCode := 200
            s3_key := some s3_key
            previous_version := if truthy previous_edited_key then previous_edited_key else none
            effects := [Effect.dbUpdate photo_id]
            table := fun k => if k = photo_id then some item else table k }

/-- Event shape consumed by get_photo: version is the query parameter. -/
structure GetEvent where
  sub : Option String
  photo_id : Option String := none
  version : Option String := none
  deriving Repr

/-- Outcome of get_photo: the presigned download is identified by the bucket
and key it is scoped to. -/
structure GetResult where
  statusCode : Nat
  errorMsg : Option String := none
  version_type : Option String := none
  download_bucket : Option String := none
  download_key : Option String := none
  effects : List Effect := []
  deriving Repr, DecidableEq

/-- get_photo.lambda_handler. -/
def get_photo (ev : GetEvent) (table : Table) : GetResult :=
  match ev.sub with
  | none => { statusCode := 401, errorMsg := some "Authentication required" }
  | some user_id =>
  match ev.photo_id with
  | none => { statusCode := 401, errorMsg := some "Authentication required" }
  | some photo_id =>
    let version_type := ev.version.getD "original"
    if !(["original", "edited"].contains version_type) then
      { statusCode := 400, errorMsg := some "version must be either original or edited" }
    else
      match table photo_id with
      | none => { statusCode := 404, errorMsg := some "Photo not found" }
      | some photo_metadata =>
        if photo_metadata.user_id != user_id then
          { statusCode := 403, errorMsg := some "Access denied" }
        else
          if version_type = "original" then
            if !truthy photo_metadata.original_s3_key ||
                !truthy photo_metadata.original_bucket then
              { statusCode := 404, errorMsg := some "Original version not found" }
            else
              { statusCode := 200
                version_type := some version_type
                download_bucket := photo_metadata.original_bucket
                download_key := photo_metadata.original_s3_key }
          else
            if !photo_metadata.has_edited_version then
              { statusCode := 404, errorMsg := some "No edited version available" }
            else if !truthy photo_metadata.edited_s3_key ||
                !truthy photo_metadata.edited_bucket then
              { statusCode := 404, errorMsg := some "Edited version not found" }
            else
              { statusCode := 200
                version_type := some version_type
                download_bucket := photo_metadata.edited_bucket
                download_key := photo_metadata.edited_s3_key }

/-- Event shape consumed by get_metadata and delete_photo. -/
structure IdEvent where
  sub : Option String
  photo_id : Option String := none
  deriving Repr

/-- Projection of the edited descriptor returned by get_metadata. -/
structure EditedMeta where
  filename : Option String
  content_type : Option String
  file_size : Int
  s3_key : Option String
  bucket : Option String
  edit_count : Int
  deriving Repr, DecidableEq

/-- Outcome of get_metadata.  The edited field is some none when the response
carries an explicit null marker for a record without an edited version. -/
structure MetaResult where
  statusCode : Nat
  errorMsg : Option String := none
  status : Option String := none
  edited : Option (Option EditedMeta) := none
  effects : List Effect := []
  deriving Repr, DecidableEq

/-- get_metadata.lambda_handler. -/
def get_metadata (ev : IdEvent) (table : Table) : MetaResult :=
  match ev.sub with
  | none => { statusCode := 401, errorMsg := some "Authentication required" }
  | some user_id =>
  match ev.photo_id with
  | none => { statusCode := 401, errorMsg := some "Authentication required" }
  | some photo_id =>
    match table photo_id with
    | none => { statusCode := 404, errorMsg := some "Photo not found" }
    | some photo_metadata =>
      if photo_metadata.user_id != user_id then
        { statusCode := 403, errorMsg := some "Access denied" }
      else
        { statusCode := 200
          status := some (photo_metadata.status.getD "unknown")
          edited := some (if photo_metadata.has_edited_version then
            some { filename := photo_metadata.edited_filename
                   content_type := photo_metadata.edited_content_type
                   file_size := photo_metadata.edited_file_size.getD 0
                   s3_key := photo_metadata.edited_s3_key
                   bucket := photo_metadata.edited_bucket
                   edit_count := photo_metadata.edit_count.getD 1 }
            else none) }

/-- One entry of the deleted_items list returned by delete_photo. -/
structure DeletedItem where
  type : String
  bucket : String
  key : String
  deriving Repr, DecidableEq

/-- Outcome of delete_photo. -/
structure DeleteResult where
  statusCode : Nat
  errorMsg : Option String := none
  deleted_items : List DeletedItem := []
  effects : List Effect := []
  table : Table

/-- delete_photo.lambda_handler.  s3DeleteOk says, per bucket and key, whether
the object-store delete call succeeds; a failing call raises and is swallowed
by the handler, which records nothing in deleted_items for it. -/
def delete_photo (ev : IdEvent) (table : Table)
    (s3DeleteOk : String → String → Bool) : DeleteResult :=
  match ev.sub with
  | none => { statusCode := 401, errorMsg := some "Authentication required", table := table }
  | some user_id =>
  match ev.photo_id with
  | none => { statusCode := 401, errorMsg := some "Authentication required", table := table }
  | some photo_id =>
    match table photo_id with
    | none => { statusCode := 404, errorMsg := some "Photo not found", table := table }
    | some m =>
      if m.user_id != user_id then
        { statusCode := 403, errorMsg := some "Access denied", table := table }
      else
        let origAttempt := truthy m.original_s3_key && truthy m.original_bucket
        let ob := m.original_bucket.getD ""
        let okey := m.original_s3_key.getD ""
        let editAttempt := m.has_edited_version &&
          (truthy m.edited_s3_key && truthy m.edited_bucket)
        let ebk := m.edited_bucket.getD ""
        let ekey := m.edited_s3_key.getD ""
        { statusCode := 200
          deleted_items :=
            (if origAttempt && s3DeleteOk ob okey then
              [{ type := "original", bucket := ob, key := okey }] else []) ++
            (if editAttempt && s3DeleteOk ebk ekey then
              [{ type := "edited", bucket := ebk, key := ekey }] else [])
          effects :=
            (if origAttempt then [Effect.s3Delete ob okey] else []) ++
            (if editAttempt then [Effect.s3Delete ebk ekey] else []) ++
            [Effect.dbDelete photo_id]
          table := fun k => if k = photo_id then none else table k }

/-- Event shape consumed by list_photos: all query parameters are optional;
limit is the already-parsed integer value of the limit parameter. -/
structure ListEvent where
  sub : Option String
  version_type : Option String := none
  limit : Option Int := none
  last_evaluated_key : Option String := none
  deriving Repr

/-- The query request list_photos passes to the metadata store. -/
structure QueryRequest where
  indexName : String
  user_id : String
  version_type : Option String
  limit : Int
  exclusiveStartKey : Option String
  deriving Repr, DecidableEq

/-- Outcome of list_photos, up to the query it issues: queryRequest is none
exactly when the handler errors before querying. -/
structure ListResult where
  statusCode : Nat
  errorMsg : Option String := none
  queryRequest : Option QueryRequest := none
  effects : List Effect := []
  deriving Repr, DecidableEq

/-- list_photos.lambda_handler up to the store query.  parseOk says whether
json.loads succeeds on a given pagination token. -/
def list_photos (ev : ListEvent) (parseOk : String → Bool) : ListResult :=
  match ev.sub with
  | none => { statusCode := 401, errorMsg := some "Authentication required" }
  | some user_id =>
    let version_type := ev.version_type
    let limit := min (ev.limit.getD 50) 100
    if truthy version_type && !(["original", "edited"].contains (version_type.getD "")) then
      { statusCode := 400, errorMsg := some "version_type must be either original or edited" }
    else
      let q : QueryRequest :=
        { indexName := if truthy version_type then "UserVersionIndex" else "UserIdIndex"
          user_id := user_id
          version_type := if truthy version_type then version_type else none
          limit := limit
          exclusiveStartKey := ev.last_evaluated_key }
      match ev.last_evaluated_key with
      | some tok =>
        if !parseOk tok then
          { statusCode := 400, errorMsg := some "Invalid pagination token" }
        else
          { statusCode := 200, queryRequest := some q }
      | none => { statusCode := 200, queryRequest := some q }

/-! Concrete fixtures used by witnesses and counterexamples. -/

/-- An empty photos table. -/
def emptyTable : Table := fun _ => none

/-- A record owned by bob with only an original asset. -/
def recBob : PhotoRecord :=
  { photo_id := "p1", user_id := "bob", original_s3_key := some "bob/originals/p1/a.jpg",
    original_bucket := some "origbkt" }

/-- A table holding only recBob under key p1. -/
def tblBob : Table := fun k => if k = "p1" then some recBob else none

/-- A record owned by alice with an edited asset already present and a stored
edit counter of 4. -/
def recAlice : PhotoRecord :=
  { photo_id := "p2", user_id := "alice", original_s3_key := some "alice/originals/p2/b.jpg",
    original_bucket := some "origbkt", has_edited_version := true,
    edited_s3_key := some "alice/edited/p2/old.jpg", edited_bucket := some "editbkt",
    edit_count := some 4 }

/-- A table holding only recAlice under key p2. -/
def tblAlice : Table := fun k => if k = "p2" then some recAlice else none

/-! Theorems for the claims. -/

/-- Characterization of the size rejection test in terms of the literal byte
bounds 5242880 and 20971520. -/
theorem fileSizeInvalid_iff (n : Int) :
    fileSizeInvalid n = true ↔ (n < 5242880 ∨ 20971520 < n) := by
  unfold fileSizeInvalid
  simp only [Bool.or_eq_true, decide_eq_true_eq]
  omega

/-- C2: for upload and edit requests, a declared size strictly below 5242880
or strictly above 20971520 is rejected with a 400 validation error, and the
boundary values 5242880 and 20971520 are both accepted (status 200, given an
otherwise valid request and, for edit, an owned existing record). -/
theorem c2_size_band_boundaries
    (u fn ct pid ts fid ob eb : String) (fs : Int) (tbl : Table) (r : PhotoRecord) :
    ((fs < 5242880 ∨ fs > 20971520) →
      (upload_photo ⟨some u, some fn, some ct, some fs⟩ tbl fid ts ob).statusCode = 400 ∧
      (update_photo ⟨some u, some pid, some fn, some ct, some fs⟩ tbl ts eb).statusCode = 400) ∧
    ((fs = 5242880 ∨ fs = 20971520) → truthy (some fn) = true → contentTypeOk ct = true →
      tbl pid = some r → r.user_id = u →
      (upload_photo ⟨some u, some fn, some ct, some fs⟩ tbl fid ts ob).statusCode = 200 ∧
      (update_photo ⟨some u, some pid, some fn, some ct, some fs⟩ tbl ts eb).statusCode = 200) := by
  constructor
  · intro h
    have hbad : fileSizeInvalid fs = true := (fileSizeInvalid_iff fs).mpr (by omega)
    constructor
    · by_cases hf : truthy (some fn) <;> simp [upload_photo, hf, hbad]
    · by_cases hf : truthy (some fn) <;> simp [update_photo, hf, hbad]
  · intro h hf hct htbl hown
    have hgood : fileSizeInvalid fs = false := by
      rw [Bool.eq_false_iff]
      intro hc
      rw [fileSizeInvalid_iff] at hc
      omega
    constructor
    · simp [upload_photo, hf, hgood, hct]
    · simp [update_photo, hf, hgood, hct, htbl, hown]

/-- C2 witness: a concrete undersized upload is rejected with 400 and a
concrete edit at the exact upper boundary on an owned record succeeds. -/
theorem c2_size_band_boundaries_witness :
    (upload_photo ⟨some "bob", some "a.jpg", some "image/jpeg", some 100⟩
      tblBob "id9" "t0" "origbkt").statusCode = 400 ∧
    (update_photo ⟨some "bob", some "p1", some "a.jpg", some "image/jpeg", some 20971520⟩
      tblBob "t1" "editbkt").statusCode = 200 :=
  ⟨((c2_size_band_boundaries "bob" "a.jpg" "image/jpeg" "p1" "t0" "id9" "origbkt" "editbkt"
      100 tblBob recBob).1 (by norm_num)).1,
   ((c2_size_band_boundaries "bob" "a.jpg" "image/jpeg" "p1" "t1" "id9" "origbkt" "editbkt"
      20971520 tblBob recBob).2 (by norm_num) (by decide) (by decide) (by decide) (by decide)).2⟩

/-- C3 counterexample: the declared size 20971520 is not strictly below the
20 MiB bound, so the claimed inclusive-exclusive band excludes it, yet a
concrete upload declaring exactly 20971520 bytes passes validation and
succeeds with status 200. -/
theorem c3_counterexample :
    ¬((20971520 : Int) < 20971520) ∧
    (upload_photo ⟨some "u", some "a.jpg", some "image/jpeg", some 20971520⟩
      emptyTable "id1" "t0" "bkt").statusCode = 200 := by
  decide

/-- C3 amended: for an upload request that is otherwise valid, the declared
byte size is accepted iff it lies in the inclusive-inclusive band from
5242880 to 20971520; any value outside this band fails validation. -/
theorem c3_size_band_inclusive
    (u fn ct ts fid ob : String) (fs : Int) (tbl : Table)
    (hf : truthy (some fn) = true) (hct : contentTypeOk ct = true) :
    (upload_photo ⟨some u, some fn, some ct, some fs⟩ tbl fid ts ob).statusCode = 200 ↔
      (5242880 ≤ fs ∧ fs ≤ 20971520) := by
  by_cases hs : fileSizeInvalid fs
  · have h := (fileSizeInvalid_iff fs).mp hs
    simp [upload_photo, hf, hs]
    omega
  · have h : ¬(fs < 5242880 ∨ 20971520 < fs) := fun hc => hs ((fileSizeInvalid_iff fs).mpr hc)
    simp [upload_photo, hf, hs, hct]
    omega

/-- C1 counterexample: the record under p1 exists and is owned by bob, the
caller is alice, yet the edit handler answers 400, not 403, because its body
validation runs before the lookup and the declared size 0 is invalid. -/
theorem c1_counterexample :
    (tblBob "p1").map PhotoRecord.user_id = some "bob" ∧
    (update_photo ⟨some "alice", some "p1", some "f.jpg", some "image/jpeg", some 0⟩
      tblBob "t1" "editbkt").statusCode = 400 ∧
    ¬(update_photo ⟨some "alice", some "p1", some "f.jpg", some "image/jpeg", some 0⟩
      tblBob "t1" "editbkt").statusCode = 403 := by
  decide

/-- C1 amended: for every lookup operation (Editor, Retriever, Metadata
Reader, Deleter), if the request passes the handler's input validation, which
in the Editor and Retriever precedes the lookup, and the record exists but its
owner differs from the caller, the handler returns 403, hence never a
not-found error and never success. -/
theorem c1_owner_mismatch_denied
    (u pid ts eb : String) (tbl : Table) (r : PhotoRecord)
    (htbl : tbl pid = some r) (hown : r.user_id ≠ u) :
    (∀ fn ct fs, truthy (some fn) = true → fileSizeInvalid fs = false →
      contentTypeOk ct = true →
      (update_photo ⟨some u, some pid, some fn, some ct, some fs⟩ tbl ts eb).statusCode = 403) ∧
    (∀ v, (["original", "edited"].contains (v.getD "original")) = true →
      (get_photo ⟨some u, some pid, v⟩ tbl).statusCode = 403) ∧
    (get_metadata ⟨some u, some pid⟩ tbl).statusCode = 403 ∧
    (∀ ok, (delete_photo ⟨some u, some pid⟩ tbl ok).statusCode = 403) := by
  have hbne : (r.user_id != u) = true := bne_iff_ne.mpr hown
  refine ⟨fun fn ct fs hf hsz hct => ?_, fun v hv => ?_, ?_, fun ok => ?_⟩
  · simp [update_photo, hf, hsz, hct, htbl, hbne]
  · have hv' : v.getD "original" = "original" ∨ v.getD "original" = "edited" := by
      simpa using hv
    rcases hv' with h | h <;> simp [get_photo, h, htbl, hbne]
  · simp [get_metadata, htbl, hbne]
  · simp [delete_photo, htbl, hbne]

/-- C1 amended witness: concrete owner-mismatched requests against the record
p1 owned by bob, issued by alice, all answer 403. -/
theorem c1_owner_mismatch_denied_witness :
    (update_photo ⟨some "alice", some "p1", some "f.jpg", some "image/jpeg", some 6000000⟩
      tblBob "t1" "editbkt").statusCode = 403 ∧
    (get_photo ⟨some "alice", some "p1", none⟩ tblBob).statusCode = 403 ∧
    (get_metadata ⟨some "alice", some "p1"⟩ tblBob).statusCode = 403 ∧
    (delete_photo ⟨some "alice", some "p1"⟩ tblBob (fun _ _ => true)).statusCode = 403 := by
  have h := c1_owner_mismatch_denied "alice" "p1" "t1" "editbkt" tblBob recBob
    (by decide) (by decide)
  exact ⟨h.1 "f.jpg" "image/jpeg" 6000000 (by decide) (by decide) (by decide),
    h.2.1 none (by decide), h.2.2.1, h.2.2.2 (fun _ _ => true)⟩

/-- C4: a successful edit on an owned existing record sets the stored edit
counter to 1 when the record has no prior edited-asset key, and to the prior
stored value plus 1, with an absent prior counter read as 0, when a prior
edited-asset key exists. -/
theorem c4_edit_counter
    (u pid fn ct ts eb : String) (fs : Int) (tbl : Table) (r : PhotoRecord)
    (hf : truthy (some fn) = true) (hsz : fileSizeInvalid fs = false)
    (hct : contentTypeOk ct = true) (htbl : tbl pid = some r) (hown : r.user_id = u) :
    (update_photo ⟨some u, some pid, some fn, some ct, some fs⟩ tbl ts eb).statusCode = 200 ∧
    (truthy r.edited_s3_key = false →
      ((update_photo ⟨some u, some pid, some fn, some ct, some fs⟩ tbl ts eb).table pid).map
        PhotoRecord.edit_count = some (some 1)) ∧
    (truthy r.edited_s3_key = true →
      ((update_photo ⟨some u, some pid, some fn, some ct, some fs⟩ tbl ts eb).table pid).map
        PhotoRecord.edit_count = some (some (r.edit_count.getD 0 + 1))) := by
  refine ⟨?_, fun hk => ?_, fun hk => ?_⟩
  · simp [update_photo, hf, hsz, hct, htbl, hown]
  · simp [update_photo, hf, hsz, hct, htbl, hown, hk]
  · simp [update_photo, hf, hsz, hct, htbl, hown, hk]

/-- C4 witness: an edit on the record p2, whose prior counter is 4 and whose
prior edited key is set, stores counter 5; an edit on the record p1, which has
no edited key, stores counter 1. -/
theorem c4_edit_counter_witness :
    ((update_photo ⟨some "alice", some "p2", some "n.jpg", some "image/jpeg", some 6000000⟩
      tblAlice "t2" "editbkt").table "p2").map PhotoRecord.edit_count = some (some 5) ∧
    ((update_photo ⟨some "bob", some "p1", some "n.jpg", some "image/jpeg", some 6000000⟩
      tblBob "t2" "editbkt").table "p1").map PhotoRecord.edit_count = some (some 1) := by
  have h1 := c4_edit_counter "alice" "p2" "n.jpg" "image/jpeg" "t2" "editbkt" 6000000
    tblAlice recAlice (by decide) (by decide) (by decide) (by decide) (by decide)
  have h2 := c4_edit_counter "bob" "p1" "n.jpg" "image/jpeg" "t2" "editbkt" 6000000
    tblBob recBob (by decide) (by decide) (by decide) (by decide) (by decide)
  exact ⟨(h1.2.2 (by decide)).trans (by decide), h2.2.1 (by decide)⟩

/-- C5: whenever a handler answers anything other than 200, in particular on
every validation failure and every ownership failure, it has performed no
write against the metadata store or the object store and the table is
unchanged; the three read handlers never write at all. -/
theorem c5_no_effects_on_failure
    (uev : UploadEvent) (vev : UpdateEvent) (dev mev : IdEvent) (gev : GetEvent)
    (lev : ListEvent) (tbl : Table) (fid ts ob eb : String)
    (ok : String → String → Bool) (parseOk : String → Bool) :
    ((upload_photo uev tbl fid ts ob).statusCode ≠ 200 →
      (upload_photo uev tbl fid ts ob).effects = [] ∧
      (upload_photo uev tbl fid ts ob).table = tbl) ∧
    ((update_photo vev tbl ts eb).statusCode ≠ 200 →
      (update_photo vev tbl ts eb).effects = [] ∧
      (update_photo vev tbl ts eb).table = tbl) ∧
    ((delete_photo dev tbl ok).statusCode ≠ 200 →
      (delete_photo dev tbl ok).effects = [] ∧
      (delete_photo dev tbl ok).table = tbl) ∧
    (get_photo gev tbl).effects = [] ∧
    (get_metadata mev tbl).effects = [] ∧
    (list_photos lev parseOk).effects = [] := by
  refine ⟨fun h => ?_, fun h => ?_, fun h => ?_, ?_, ?_, ?_⟩
  · rcases uev with ⟨s, fn, ct, fs⟩
    cases s with
    | none => exact ⟨rfl, rfl⟩
    | some u =>
      by_cases h1 : truthy fn
      · by_cases h2 : fileSizeInvalid (fs.getD 0)
        · simp [upload_photo, h1, h2]
        · by_cases h3 : contentTypeOk (ct.getD "image/jpeg")
          · exact absurd (by simp [upload_photo, h1, h2, h3]) h
          · simp [upload_photo, h1, h2, h3]
      · simp [upload_photo, h1]
  · rcases vev with ⟨s, p, fn, ct, fs⟩
    cases s with
    | none => exact ⟨rfl, rfl⟩
    | some u =>
      cases p with
      | none => exact ⟨rfl, rfl⟩
      | some pid =>
        by_cases h1 : truthy fn
        · by_cases h2 : fileSizeInvalid (fs.getD 0)
          · simp [update_photo, h1, h2]
          · by_cases h3 : contentTypeOk (ct.getD "image/jpeg")
            · cases htb : tbl pid with
              | none => simp [update_photo, h1, h2, h3, htb]
              | some m =>
                by_cases h4 : (m.user_id != u) = true
                · simp [update_photo, h1, h2, h3, htb, h4]
                · exact absurd (by simp [update_photo, h1, h2, h3, htb, h4]) h
            · simp [update_photo, h1, h2, h3]
        · simp [update_photo, h1]
  · rcases dev with ⟨s, p⟩
    cases s with
    | none => exact ⟨rfl, rfl⟩
    | some u =>
      cases p with
      | none => exact ⟨rfl, rfl⟩
      | some pid =>
        cases htb : tbl pid with
        | none => simp [delete_photo, htb]
        | some m =>
          by_cases h4 : (m.user_id != u) = true
          · simp [delete_photo, htb, h4]
          · exact absurd (by simp [delete_photo, htb, h4]) h
  · unfold get_photo
    repeat' split
    all_goals (repeat (first | rfl | dsimp only | split))
  · unfold get_metadata
    repeat' split
    all_goals (repeat (first | rfl | dsimp only | split))
  · unfold list_photos
    repeat' split
    all_goals (repeat (first | rfl | dsimp only | split))

/-- C5 witness: concrete failing requests perform no writes; concrete read
requests perform none either. -/
theorem c5_no_effects_on_failure_witness :
    (upload_photo ⟨some "u", none, none, none⟩ emptyTable "i" "t" "b").effects = [] ∧
    (update_photo ⟨some "alice", some "p1", some "f.jpg", some "image/jpeg", some 6000000⟩
      tblBob "t" "e").effects = [] ∧
    (delete_photo ⟨some "alice", some "p1"⟩ tblBob (fun _ _ => true)).effects = [] ∧
    (get_photo ⟨some "bob", some "p1", none⟩ tblBob).effects = [] := by
  have h := c5_no_effects_on_failure ⟨some "u", none, none, none⟩
    ⟨some "alice", some "p1", some "f.jpg", some "image/jpeg", some 6000000⟩
    ⟨some "alice", some "p1"⟩ ⟨some "alice", some "p1"⟩ ⟨some "bob", some "p1", none⟩
    ⟨some "u", none, none, none⟩ tblBob "i" "t" "b" "e" (fun _ _ => true) (fun _ => true)
  exact ⟨(h.1 (by decide)).1, (h.2.1 (by decide)).1, (h.2.2.1 (by decide)).1, h.2.2.2.1⟩

/-- C3 amended witness: a concrete upload at the upper boundary succeeds. -/
theorem c3_size_band_inclusive_witness :
    (upload_photo ⟨some "u", some "a.jpg", some "image/jpeg", some 20971520⟩
      emptyTable "id1" "t0" "bkt").statusCode = 200 :=
  (c3_size_band_inclusive "u" "a.jpg" "image/jpeg" "t0" "id1" "bkt" 20971520 emptyTable
    (by decide) (by decide)).mpr (by norm_num)

/-- C6: deleting an owned existing record succeeds with 200 for every
combination of object-store delete outcomes; the metadata delete is the last
effect, the record is gone from the table, and deleted_items holds exactly the
assets that were attempted and whose delete call succeeded. -/
theorem c6_delete_best_effort
    (u pid : String) (tbl : Table) (m : PhotoRecord) (ok : String → String → Bool)
    (htbl : tbl pid = some m) (hown : m.user_id = u) :
    (delete_photo ⟨some u, some pid⟩ tbl ok).statusCode = 200 ∧
    (delete_photo ⟨some u, some pid⟩ tbl ok).effects.getLast? = some (Effect.dbDelete pid) ∧
    (delete_photo ⟨some u, some pid⟩ tbl ok).table pid = none ∧
    (∀ it : DeletedItem, it ∈ (delete_photo ⟨some u, some pid⟩ tbl ok).deleted_items ↔
      (((truthy m.original_s3_key && truthy m.original_bucket) &&
          ok (m.original_bucket.getD "") (m.original_s3_key.getD "")) = true ∧
        it = ⟨"original", m.original_bucket.getD "", m.original_s3_key.getD ""⟩) ∨
      (((m.has_edited_version && (truthy m.edited_s3_key && truthy m.edited_bucket)) &&
          ok (m.edited_bucket.getD "") (m.edited_s3_key.getD "")) = true ∧
        it = ⟨"edited", m.edited_bucket.getD "", m.edited_s3_key.getD ""⟩)) := by
  have hbne : (m.user_id != u) = false := by simp [hown]
  refine ⟨?_, ?_, ?_, fun it => ?_⟩ <;>
    by_cases a1 : (truthy m.original_s3_key && truthy m.original_bucket) = true <;>
    by_cases a2 : (m.has_edited_version && (truthy m.edited_s3_key &&
      truthy m.edited_bucket)) = true <;>
    by_cases o1 : ok (m.original_bucket.getD "") (m.original_s3_key.getD "") = true <;>
    by_cases o2 : ok (m.edited_bucket.getD "") (m.edited_s3_key.getD "") = true <;>
    simp [delete_photo, htbl, hbne, a1, a2, o1, o2, List.getLast?]

/-- C6 witness: deleting the record p2, which has both assets, with an oracle
on which only the original-bucket delete succeeds, answers 200, ends with the
metadata delete, and lists exactly the original asset. -/
theorem c6_delete_best_effort_witness :
    (delete_photo ⟨some "alice", some "p2"⟩ tblAlice
      (fun b _ => b == "origbkt")).statusCode = 200 ∧
    (delete_photo ⟨some "alice", some "p2"⟩ tblAlice
      (fun b _ => b == "origbkt")).effects.getLast? = some (Effect.dbDelete "p2") ∧
    ((⟨"original", "origbkt", "alice/originals/p2/b.jpg"⟩ : DeletedItem) ∈
      (delete_photo ⟨some "alice", some "p2"⟩ tblAlice
        (fun b _ => b == "origbkt")).deleted_items) ∧
    ¬((⟨"edited", "editbkt", "alice/edited/p2/old.jpg"⟩ : DeletedItem) ∈
      (delete_photo ⟨some "alice", some "p2"⟩ tblAlice
        (fun b _ => b == "origbkt")).deleted_items) := by
  have h := c6_delete_best_effort "alice" "p2" tblAlice recAlice
    (fun b _ => b == "origbkt") (by decide) (by decide)
  refine ⟨h.1, h.2.1, (h.2.2.2 _).mpr (Or.inl ⟨by decide, by decide⟩), fun hc => ?_⟩
  rcases (h.2.2.2 _).mp hc with ⟨_, he⟩ | ⟨hb, _⟩
  · exact absurd he (by decide)
  · exact absurd hb (by decide)

/-- C7: an upload request that passes validation writes exactly one record,
whose status is pending_upload, whose edited-version flag is false, and whose
creation and last-update timestamps are equal. -/
theorem c7_upload_pending
    (u fn ct fid ts ob : String) (fs : Int) (tbl : Table)
    (hf : truthy (some fn) = true) (hsz : fileSizeInvalid fs = false)
    (hct : contentTypeOk ct = true) :
    ∃ item : PhotoRecord,
      (upload_photo ⟨some u, some fn, some ct, some fs⟩ tbl fid ts ob).statusCode = 200 ∧
      (upload_photo ⟨some u, some fn, some ct, some fs⟩ tbl fid ts ob).effects =
        [Effect.dbPut item] ∧
      (upload_photo ⟨some u, some fn, some ct, some fs⟩ tbl fid ts ob).table fid = some item ∧
      item.status = some "pending_upload" ∧
      item.has_edited_version = false ∧
      item.created_at = item.updated_at := by
  simp [upload_photo, hf, hsz, hct]

/-- C7 witness: a concrete valid upload creates a pending_upload record with
equal timestamps. -/
theorem c7_upload_pending_witness :
    ((upload_photo ⟨some "u", some "a.jpg", some "image/jpeg", some 6000000⟩
      emptyTable "id1" "t0" "bkt").table "id1").map
        (fun item => (item.status, item.has_edited_version,
          item.created_at = item.updated_at)) =
      some (some "pending_upload", false, True) := by
  obtain ⟨item, -, -, htab, hst, hed, htime⟩ :=
    c7_upload_pending "u" "a.jpg" "image/jpeg" "id1" "t0" "bkt" 6000000 emptyTable
      (by decide) (by decide) (by decide)
  rw [htab]
  simp [hst, hed, htime]

/-- C8: whenever list_photos issues a store query, the query page size is the
minimum of the requested limit and 100, is 50 when no limit is supplied, and
is 100 when the requested limit is 150. -/
theorem c8_list_page_size (ev : ListEvent) (parseOk : String → Bool) (q : QueryRequest)
    (hq : (list_photos ev parseOk).queryRequest = some q) :
    q.limit = min (ev.limit.getD 50) 100 ∧
    (ev.limit = none → q.limit = 50) ∧
    (ev.limit = some 150 → q.limit = 100) := by
  have hlim : q.limit = min (ev.limit.getD 50) 100 := by
    rcases ev with ⟨s, vt, lim, lek⟩
    cases s with
    | none => exact absurd hq (by simp [list_photos])
    | some u =>
      simp only [list_photos] at hq
      split at hq
      · exact absurd hq (by simp)
      · split at hq
        · split at hq
          · exact absurd hq (by simp)
          · cases Option.some.inj hq
            rfl
        · cases Option.some.inj hq
          rfl
  refine ⟨hlim, fun h => ?_, fun h => ?_⟩ <;> rw [hlim, h] <;> decide

/-- C8 witness: a list request with limit 150 issues a query with page size
exactly 100. -/
theorem c8_list_page_size_witness :
    (list_photos ⟨some "u", none, some 150, none⟩ (fun _ => true)).queryRequest =
      some ⟨"UserIdIndex", "u", none, 100, none⟩ ∧
    (⟨"UserIdIndex", "u", none, 100, none⟩ : QueryRequest).limit = 100 :=
  ⟨by decide,
   (c8_list_page_size ⟨some "u", none, some 150, none⟩ (fun _ => true) _ (by decide)).2.2 rfl⟩

/-- C9: a request carrying a valid caller identity but no photo_id path
parameter answers 401 on every handler that reads the path parameter, and a
request missing the identity claim chain answers 401 on the remaining
handlers too: every KeyError maps to the authentication-required response. -/
theorem c9_missing_key_is_401
    (u fid ts ob eb : String) (tbl : Table) (ok : String → String → Bool)
    (fn ct v vt lek : Option String) (fs lim : Option Int) (parseOk : String → Bool) :
    (update_photo ⟨some u, none, fn, ct, fs⟩ tbl ts eb).statusCode = 401 ∧
    (get_photo ⟨some u, none, v⟩ tbl).statusCode = 401 ∧
    (get_metadata ⟨some u, none⟩ tbl).statusCode = 401 ∧
    (delete_photo ⟨some u, none⟩ tbl ok).statusCode = 401 ∧
    (upload_photo ⟨none, fn, ct, fs⟩ tbl fid ts ob).statusCode = 401 ∧
    (list_photos ⟨none, vt, lim, lek⟩ parseOk).statusCode = 401 :=
  ⟨rfl, rfl, rfl, rfl, rfl, rfl⟩

/-- C10: an upload or edit request whose body omits content_type gets the
default image/jpeg, passes content-type validation, succeeds given valid
filename and size (and, for edit, an owned existing record), and the stored
descriptor records content-type image/jpeg. -/
theorem c10_default_content_type
    (u fn pid fid ts ob eb : String) (fs : Int) (tbl : Table) (r : PhotoRecord)
    (hf : truthy (some fn) = true) (hsz : fileSizeInvalid fs = false)
    (htbl : tbl pid = some r) (hown : r.user_id = u) :
    (upload_photo ⟨some u, some fn, none, some fs⟩ tbl fid ts ob).statusCode = 200 ∧
    ((upload_photo ⟨some u, some fn, none, some fs⟩ tbl fid ts ob).table fid).map
      PhotoRecord.content_type = some (some "image/jpeg") ∧
    (update_photo ⟨some u, some pid, some fn, none, some fs⟩ tbl ts eb).statusCode = 200 ∧
    ((update_photo ⟨some u, some pid, some fn, none, some fs⟩ tbl ts eb).table pid).map
      PhotoRecord.edited_content_type = some (some "image/jpeg") := by
  have hct : contentTypeOk "image/jpeg" = true := by decide
  have hbne : (r.user_id != u) = false := by simp [hown]
  refine ⟨?_, ?_, ?_, ?_⟩ <;>
    simp [upload_photo, update_photo, hf, hsz, hct, htbl, hbne]

/-- C10 witness: a concrete upload and a concrete edit without content_type
succeed and store content-type image/jpeg. -/
theorem c10_default_content_type_witness :
    ((upload_photo ⟨some "bob", some "a.jpg", none, some 6000000⟩
      tblBob "id1" "t0" "bkt").table "id1").map PhotoRecord.content_type =
      some (some "image/jpeg") ∧
    ((update_photo ⟨some "bob", some "p1", some "a.jpg", none, some 6000000⟩
      tblBob "t1" "editbkt").table "p1").map PhotoRecord.edited_content_type =
      some (some "image/jpeg") := by
  have h := c10_default_content_type "bob" "a.jpg" "p1" "id1" "t0" "bkt" "editbkt" 6000000
    tblBob recBob (by decide) (by decide) (by decide) (by decide)
  exact ⟨h.2.1, h.2.2.2⟩

end PhotoHQ
